import Mathlib

/-
  Verification of the TCAN4550 CAN driver core (tcan4550.c) against its
  natural-language specification.  The driver logic is shallowly embedded:
  pure computations on machine words become Lean functions on Nat (with
  explicit truncation where the C code can overflow), register traffic is
  recorded as explicit lists of (address, value) pairs, and the interrupt
  dispatcher becomes a pure function from the observed interrupt word and
  current state to its outputs.
-/

namespace Tcan4550

/-! ### Constants from the source -/

/-- Linux CAN extended-frame flag (bit 31 of can_id). -/
def CAN_EFF_FLAG : Nat := 0x80000000

/-- Linux CAN remote-transmission-request flag (bit 30 of can_id). -/
def CAN_RTR_FLAG : Nat := 0x40000000

/-- Mask for a 29-bit extended CAN identifier. -/
def CAN_EFF_MASK : Nat := 0x1FFFFFFF

/-- Mask for an 11-bit standard CAN identifier. -/
def CAN_SFF_MASK : Nat := 0x7FF

/-- Linux CAN bus-off error-frame flag. -/
def CAN_ERR_BUSOFF : Nat := 0x40

def MRAM_BASE : Nat := 0x8000

def TX_FIFO_START_ADDRESS : Nat := 0x0

def RX_FIFO_START_ADDRESS : Nat := 0x200

def TX_SLOT_SIZE : Nat := 16

def RX_SLOT_SIZE : Nat := 16

def TX_MSG_BOXES : Nat := 32

def RX_MSG_BOXES : Nat := 32

def MAX_BURST_TX_MESSAGES : Nat := 8

def MAX_BURST_RX_MESSAGES : Nat := 8

/-- Size of the software tx buffer: one slot reserved to tell full from empty. -/
def TX_BUFFER_SIZE : Nat := 16 + 1

/-- Interrupt register address. -/
def IR : Nat := 0x1050

/-- Interrupt enable register address. -/
def IE : Nat := 0x1054

def RXF0S : Nat := 0x10A4

def RXF0A : Nat := 0x10A8

def TXQFS : Nat := 0x10C4

def TXBAR : Nat := 0x10D0

/-- rx fifo 0 new data interrupt bit. -/
def RF0N : Nat := 1 <<< 0

/-- transmit fifo empty interrupt bit. -/
def TFE : Nat := 1 <<< 11

/-- error passive interrupt bit. -/
def EP : Nat := 1 <<< 23

/-- error warning interrupt bit. -/
def EW : Nat := 1 <<< 24

/-- bus off interrupt bit. -/
def BO : Nat := 1 <<< 25

/-- Truncation of a value stored into an unsigned char. -/
def toByte (x : Nat) : Nat := x % 256

/-- Unsigned 32-bit subtraction as computed by the C code. -/
def u32sub (a b : Nat) : Nat := (a + 2 ^ 32 - b) % 2 ^ 32

/-! ### Message codec -/

/-- A CAN frame as exchanged with the Linux networking stack: raw can_id word
(flags embedded in the top bits), payload length and eight payload bytes. -/
structure CanFrame where
  can_id : Nat
  len : Nat
  data : Fin 8 → Nat

/-- The 4-word wire record stored in a message-RAM slot. -/
structure WireMsg where
  w0 : Nat
  w1 : Nat
  w2 : Nat
  w3 : Nat
deriving DecidableEq

/-- Builds a can_id word the way the Linux stack does: identifier in the low
bits, remote-request flag at bit 30, extended flag at bit 31. -/
def mkCanId (id : Nat) (extended rtr : Bool) : Nat :=
  id + rtr.toNat * CAN_RTR_FLAG + extended.toNat * CAN_EFF_FLAG

/-- Embedding of tcan4550_composeMessage: convert a frame to the 4-word wire
record.  Mirrors the source line by line. -/
def tcan4550_composeMessage (frame : CanFrame) : WireMsg :=
  let extended : Bool := frame.can_id &&& CAN_EFF_FLAG != 0
  let rtr : Bool := frame.can_id &&& CAN_RTR_FLAG != 0
  let len : Nat := if 8 < frame.len then 8 else frame.len
  let w0 : Nat :=
    if extended then frame.can_id &&& CAN_EFF_MASK
    else (frame.can_id &&& CAN_SFF_MASK) <<< 18
  { w0 := w0 + (rtr.toNat <<< 29) + (extended.toNat <<< 30)
    w1 := len <<< 16
    w2 := frame.data 0 + (frame.data 1 <<< 8) + (frame.data 2 <<< 16) + (frame.data 3 <<< 24)
    w3 := frame.data 4 + (frame.data 5 <<< 8) + (frame.data 6 <<< 16) + (frame.data 7 <<< 24) }

/-- The eight payload-byte extractions of the receive path, one case per
assignment to cf.data in the source. -/
def rxDataByte (w2 w3 : Nat) : Fin 8 → Nat
  | 0 => w2 &&& 0xFF
  | 1 => (w2 >>> 8) &&& 0xFF
  | 2 => (w2 >>> 16) &&& 0xFF
  | 3 => (w2 >>> 24) &&& 0xFF
  | 4 => w3 &&& 0xFF
  | 5 => (w3 >>> 8) &&& 0xFF
  | 6 => (w3 >>> 16) &&& 0xFF
  | 7 => (w3 >>> 24) &&& 0xFF

/-- Embedding of the per-record decode performed in tcan4550_recMsgs when a
received wire record is turned back into a can_frame (fields cf.len,
cf.can_id and cf.data of the source). -/
def tcan4550_decodeMessage (m : WireMsg) : CanFrame :=
  { len := (m.w1 >>> 16) &&& 0x7F
    can_id :=
      if m.w0 &&& (1 <<< 30) != 0 then (m.w0 &&& CAN_EFF_MASK) ||| CAN_EFF_FLAG
      else (m.w0 >>> 18) &&& CAN_SFF_MASK
    data := rxDataByte m.w2 m.w3 }

/-! ### Arithmetic views of the bit operations -/

lemma and_mask_eq_mod (x n : Nat) : x &&& (2 ^ n - 1) = x % 2 ^ n :=
  Nat.and_pow_two_sub_one_eq_mod x n

lemma and_two_pow_elim (x n : Nat) : x &&& 2 ^ n = x / 2 ^ n % 2 * 2 ^ n := by
  rw [Nat.and_two_pow, Nat.testBit_to_div_mod]
  rcases Nat.mod_two_eq_zero_or_one (x / 2 ^ n) with h | h <;> simp [h]

lemma or_two_pow_eq_add {a : Nat} (n : Nat) (h : a < 2 ^ n) : a ||| 2 ^ n = a + 2 ^ n := by
  have h2 := Nat.mul_add_lt_is_or h 1
  simp only [Nat.mul_one] at h2
  rw [Nat.lor_comm, ← h2, Nat.add_comm]

lemma CAN_EFF_FLAG_eq : CAN_EFF_FLAG = 2 ^ 31 := by norm_num [CAN_EFF_FLAG]

lemma CAN_RTR_FLAG_eq : CAN_RTR_FLAG = 2 ^ 30 := by norm_num [CAN_RTR_FLAG]

lemma CAN_EFF_MASK_eq : CAN_EFF_MASK = 2 ^ 29 - 1 := by norm_num [CAN_EFF_MASK]

lemma CAN_SFF_MASK_eq : CAN_SFF_MASK = 2 ^ 11 - 1 := by norm_num [CAN_SFF_MASK]

lemma mask7f : (0x7F : Nat) = 2 ^ 7 - 1 := by norm_num

lemma maskff : (0xFF : Nat) = 2 ^ 8 - 1 := by norm_num

lemma toNat_bne_zero (x : Nat) : ((x != 0) : Bool).toNat = if x = 0 then 0 else 1 := by
  rcases Nat.eq_zero_or_pos x with h | h
  · simp [h]
  · have hne : x ≠ 0 := Nat.pos_iff_ne_zero.mp h
    simp [hne]

lemma if_bne_zero {A : Type} (x : Nat) (a b : A) :
    (if (x != 0) = true then a else b) = if x = 0 then b else a := by
  rcases Nat.eq_zero_or_pos x with h | h
  · simp [h]
  · have hne : x ≠ 0 := Nat.pos_iff_ne_zero.mp h
    simp [hne]

lemma mod29_or_pow31 (x : Nat) : x % 2 ^ 29 ||| 2 ^ 31 = x % 2 ^ 29 + 2 ^ 31 :=
  or_two_pow_eq_add 31 (by have := Nat.mod_lt x (show 0 < 2 ^ 29 by norm_num); omega)

lemma rxDataByte_roundtrip (data : Fin 8 → Nat) (hdata : ∀ i, data i < 256) :
    rxDataByte (data 0 + data 1 * 2 ^ 8 + data 2 * 2 ^ 16 + data 3 * 2 ^ 24)
               (data 4 + data 5 * 2 ^ 8 + data 6 * 2 ^ 16 + data 7 * 2 ^ 24) = data := by
  have hd0 := hdata 0
  have hd1 := hdata 1
  have hd2 := hdata 2
  have hd3 := hdata 3
  have hd4 := hdata 4
  have hd5 := hdata 5
  have hd6 := hdata 6
  have hd7 := hdata 7
  have h0 : rxDataByte (data 0 + data 1 * 2 ^ 8 + data 2 * 2 ^ 16 + data 3 * 2 ^ 24)
      (data 4 + data 5 * 2 ^ 8 + data 6 * 2 ^ 16 + data 7 * 2 ^ 24) 0 = data 0 := by
    show (data 0 + data 1 * 2 ^ 8 + data 2 * 2 ^ 16 + data 3 * 2 ^ 24) &&& 0xFF = data 0
    rw [maskff, Nat.and_pow_two_sub_one_eq_mod]
    omega
  have h1 : rxDataByte (data 0 + data 1 * 2 ^ 8 + data 2 * 2 ^ 16 + data 3 * 2 ^ 24)
      (data 4 + data 5 * 2 ^ 8 + data 6 * 2 ^ 16 + data 7 * 2 ^ 24) 1 = data 1 := by
    show ((data 0 + data 1 * 2 ^ 8 + data 2 * 2 ^ 16 + data 3 * 2 ^ 24) >>> 8) &&& 0xFF = data 1
    rw [Nat.shiftRight_eq_div_pow, maskff, Nat.and_pow_two_sub_one_eq_mod]
    omega
  have h2 : rxDataByte (data 0 + data 1 * 2 ^ 8 + data 2 * 2 ^ 16 + data 3 * 2 ^ 24)
      (data 4 + data 5 * 2 ^ 8 + data 6 * 2 ^ 16 + data 7 * 2 ^ 24) 2 = data 2 := by
    show ((data 0 + data 1 * 2 ^ 8 + data 2 * 2 ^ 16 + data 3 * 2 ^ 24) >>> 16) &&& 0xFF = data 2
    rw [Nat.shiftRight_eq_div_pow, maskff, Nat.and_pow_two_sub_one_eq_mod]
    omega
  have h3 : rxDataByte (data 0 + data 1 * 2 ^ 8 + data 2 * 2 ^ 16 + data 3 * 2 ^ 24)
      (data 4 + data 5 * 2 ^ 8 + data 6 * 2 ^ 16 + data 7 * 2 ^ 24) 3 = data 3 := by
    show ((data 0 + data 1 * 2 ^ 8 + data 2 * 2 ^ 16 + data 3 * 2 ^ 24) >>> 24) &&& 0xFF = data 3
    rw [Nat.shiftRight_eq_div_pow, maskff, Nat.and_pow_two_sub_one_eq_mod]
    omega
  have h4 : rxDataByte (data 0 + data 1 * 2 ^ 8 + data 2 * 2 ^ 16 + data 3 * 2 ^ 24)
      (data 4 + data 5 * 2 ^ 8 + data 6 * 2 ^ 16 + data 7 * 2 ^ 24) 4 = data 4 := by
    show (data 4 + data 5 * 2 ^ 8 + data 6 * 2 ^ 16 + data 7 * 2 ^ 24) &&& 0xFF = data 4
    rw [maskff, Nat.and_pow_two_sub_one_eq_mod]
    omega
  have h5 : rxDataByte (data 0 + data 1 * 2 ^ 8 + data 2 * 2 ^ 16 + data 3 * 2 ^ 24)
      (data 4 + data 5 * 2 ^ 8 + data 6 * 2 ^ 16 + data 7 * 2 ^ 24) 5 = data 5 := by
    show ((data 4 + data 5 * 2 ^ 8 + data 6 * 2 ^ 16 + data 7 * 2 ^ 24) >>> 8) &&& 0xFF = data 5
    rw [Nat.shiftRight_eq_div_pow, maskff, Nat.and_pow_two_sub_one_eq_mod]
    omega
  have h6 : rxDataByte (data 0 + data 1 * 2 ^ 8 + data 2 * 2 ^ 16 + data 3 * 2 ^ 24)
      (data 4 + data 5 * 2 ^ 8 + data 6 * 2 ^ 16 + data 7 * 2 ^ 24) 6 = data 6 := by
    show ((data 4 + data 5 * 2 ^ 8 + data 6 * 2 ^ 16 + data 7 * 2 ^ 24) >>> 16) &&& 0xFF = data 6
    rw [Nat.shiftRight_eq_div_pow, maskff, Nat.and_pow_two_sub_one_eq_mod]
    omega
  have h7 : rxDataByte (data 0 + data 1 * 2 ^ 8 + data 2 * 2 ^ 16 + data 3 * 2 ^ 24)
      (data 4 + data 5 * 2 ^ 8 + data 6 * 2 ^ 16 + data 7 * 2 ^ 24) 7 = data 7 := by
    show ((data 4 + data 5 * 2 ^ 8 + data 6 * 2 ^ 16 + data 7 * 2 ^ 24) >>> 24) &&& 0xFF = data 7
    rw [Nat.shiftRight_eq_div_pow, maskff, Nat.and_pow_two_sub_one_eq_mod]
    omega
  funext i
  rcases i with ⟨iv, hi⟩
  interval_cases iv
  · exact h0
  · exact h1
  · exact h2
  · exact h3
  · exact h4
  · exact h5
  · exact h6
  · exact h7

/-! ### Claim C1: codec round trip -/

/-- Claim C1, counterexample: a standard frame carrying the remote-request
flag does not survive the round trip, because the decode path never inspects
wire bit 29: the decoded can_id has the remote-request flag cleared while the
original frame had it set. -/
theorem composeMessage_drops_rtr :
    mkCanId 5 false true &&& CAN_RTR_FLAG ≠ 0 ∧
    (tcan4550_decodeMessage
        (tcan4550_composeMessage ⟨mkCanId 5 false true, 0, fun _ => 0⟩)).can_id &&&
      CAN_RTR_FLAG = 0 := by
  constructor
  · decide
  · decide

/-- Claim C1 (corrected): for every payload length in 0..8, every representable
standard or extended identifier, both flag values and arbitrary payload bytes,
decoding the record produced by encoding recovers the identifier, the extended
flag, the length and all payload bytes; the remote-request flag, however, is
always decoded as false, so the frame is recovered in full exactly when its
remote-request flag was false. -/
theorem composeMessage_decode_roundtrip (id len : Nat) (extended rtr : Bool)
    (data : Fin 8 → Nat)
    (hid : id < if extended then 2 ^ 29 else 2 ^ 11)
    (hlen : len ≤ 8) (hdata : ∀ i, data i < 256) :
    tcan4550_decodeMessage (tcan4550_composeMessage ⟨mkCanId id extended rtr, len, data⟩) =
      ⟨mkCanId id extended false, len, data⟩ := by
  have hd0 := hdata 0
  have hd1 := hdata 1
  have hd2 := hdata 2
  have hd3 := hdata 3
  have hd4 := hdata 4
  have hd5 := hdata 5
  have hd6 := hdata 6
  have hd7 := hdata 7
  cases extended <;> cases rtr <;>
  · simp at hid
    simp only [tcan4550_composeMessage, tcan4550_decodeMessage, mkCanId,
      Bool.toNat_true, Bool.toNat_false, CAN_EFF_FLAG_eq, CAN_RTR_FLAG_eq,
      CAN_EFF_MASK_eq, CAN_SFF_MASK_eq, mask7f, maskff,
      and_mask_eq_mod, and_two_pow_elim,
      Nat.shiftLeft_eq, Nat.shiftRight_eq_div_pow, Nat.one_mul, Nat.zero_mul,
      Nat.add_zero, Nat.mul_one, CanFrame.mk.injEq]
    refine ⟨?_, ?_, ?_⟩
    · simp only [toNat_bne_zero, if_bne_zero, mod29_or_pow31]
      split_ifs <;> omega
    · split_ifs <;> omega
    · exact rxDataByte_roundtrip data hdata

/-- Witness for claim C1: the round-trip theorem applied to a concrete
extended remote frame. -/
theorem composeMessage_decode_roundtrip_witness :
    tcan4550_decodeMessage
        (tcan4550_composeMessage ⟨mkCanId 5 true true, 3, ![1, 2, 3, 4, 5, 6, 7, 8]⟩) =
      ⟨mkCanId 5 true false, 3, ![1, 2, 3, 4, 5, 6, 7, 8]⟩ :=
  composeMessage_decode_roundtrip 5 3 true true ![1, 2, 3, 4, 5, 6, 7, 8]
    (by norm_num) (by norm_num) (by decide)

/-! ### Hardware FIFO coordinator -/

/-- Result of one pass of the transmit work handler, as far as the burst
window is concerned: the fields computed from the TXQFS read before any
message is built. -/
structure TxPass where
  freeBuffers : Nat
  writeIndex : Nat
  msgsToTransmit : Nat
  baseAddress : Nat
deriving DecidableEq

/-- Embedding of the burst-window computation of tcan4550_tx_work_handler:
extract free-buffer count and write index from the TXQFS value, clamp the
burst first to the maximum SPI burst size and then so that it does not pass
the end of the hardware tx ring. -/
def tcan4550_tx_work_model (txqfs : Nat) : TxPass :=
  let freeBuffers := txqfs &&& 0x3F
  let writeIndex := (txqfs >>> 16) &&& 0x1F
  let m1 := if MAX_BURST_TX_MESSAGES < freeBuffers then MAX_BURST_TX_MESSAGES else freeBuffers
  let m2 := if TX_MSG_BOXES < writeIndex + m1 then u32sub TX_MSG_BOXES writeIndex else m1
  { freeBuffers := freeBuffers
    writeIndex := writeIndex
    msgsToTransmit := m2
    baseAddress := MRAM_BASE + TX_FIFO_START_ADDRESS + writeIndex * TX_SLOT_SIZE }

/-- Result of one pass of tcan4550_recMsgs: the fields computed from the
RXF0S value, and the register writes the pass issues (the only write is the
single acknowledge of the last consumed index). -/
structure RxPass where
  fillLevel : Nat
  getIndex : Nat
  msgsToGet : Nat
  baseAddress : Nat
  regWrites : List (Nat × Nat)
  didWork : Bool
deriving DecidableEq

/-- Embedding of tcan4550_recMsgs up to its register traffic: extract fill
level and get index from the RXF0S value; bail out when the fifo is empty;
clamp the burst first at the ring end (32-bit subtraction, as in the source)
and then to the maximum SPI burst size; acknowledge by writing the last
consumed index to RXF0A. -/
def tcan4550_recMsgs_model (rxf0s : Nat) : RxPass :=
  let fillLevel := rxf0s &&& 0x7F
  let getIndex := (rxf0s >>> 8) &&& 0x3F
  let baseAddress := MRAM_BASE + RX_FIFO_START_ADDRESS + getIndex * RX_SLOT_SIZE
  if fillLevel = 0 then
    { fillLevel := fillLevel, getIndex := getIndex, msgsToGet := 0,
      baseAddress := baseAddress, regWrites := [], didWork := false }
  else
    let m1 := if u32sub RX_MSG_BOXES getIndex < fillLevel then u32sub RX_MSG_BOXES getIndex
              else fillLevel
    let m2 := if MAX_BURST_RX_MESSAGES < m1 then MAX_BURST_RX_MESSAGES else m1
    { fillLevel := fillLevel, getIndex := getIndex, msgsToGet := m2,
      baseAddress := baseAddress,
      regWrites := [(RXF0A, u32sub (getIndex + m2) 1)], didWork := true }

lemma mask3f : (0x3F : Nat) = 2 ^ 6 - 1 := by norm_num

lemma mask1f : (0x1F : Nat) = 2 ^ 5 - 1 := by norm_num

/-! ### Claim C2: bursts never cross the ring boundary -/

/-- Claim C2, counterexample: on the receive path a status value whose masked
read index is 33 (above the 32-slot ring) makes the 32-bit subtraction in the
wrap clamp underflow, so the clamp does not fire and the issued burst crosses
the ring boundary: index 33 plus burst 1 exceeds capacity 32. -/
theorem recMsgs_burst_crosses_boundary :
    (tcan4550_recMsgs_model 8449).getIndex = 33 ∧
    (tcan4550_recMsgs_model 8449).msgsToGet = 1 ∧
    ¬((tcan4550_recMsgs_model 8449).getIndex + (tcan4550_recMsgs_model 8449).msgsToGet ≤
        RX_MSG_BOXES) := by
  refine ⟨?_, ?_, ?_⟩ <;> decide

/-- Claim C2 (corrected): the transmit path never proposes a burst crossing
the ring boundary, for every possible TXQFS register value, because the write
index is masked to five bits; the receive path guarantees the same whenever
the masked read index reported by RXF0S does not exceed the ring capacity 32
(the index field is masked to six bits, and for reported indices 33..63 the
32-bit subtraction in the wrap clamp underflows and the bound fails). -/
theorem burst_window_no_wrap (txqfs rxf0s : Nat)
    (h : (rxf0s >>> 8) &&& 0x3F ≤ RX_MSG_BOXES) :
    (tcan4550_tx_work_model txqfs).writeIndex + (tcan4550_tx_work_model txqfs).msgsToTransmit ≤
        TX_MSG_BOXES ∧
      (tcan4550_recMsgs_model rxf0s).getIndex + (tcan4550_recMsgs_model rxf0s).msgsToGet ≤
        RX_MSG_BOXES := by
  have h2 : (rxf0s >>> 8) &&& 0x3F ≤ 32 := h
  simp only [mask3f, and_mask_eq_mod, Nat.shiftRight_eq_div_pow] at h2
  constructor
  · simp only [tcan4550_tx_work_model, u32sub, MAX_BURST_TX_MESSAGES, TX_MSG_BOXES,
      mask3f, mask1f, and_mask_eq_mod, Nat.shiftRight_eq_div_pow]
    split_ifs <;> omega
  · simp only [tcan4550_recMsgs_model, u32sub, MAX_BURST_RX_MESSAGES, RX_MSG_BOXES,
      mask7f, mask3f, and_mask_eq_mod, Nat.shiftRight_eq_div_pow]
    have hu : (32 + 2 ^ 32 - rxf0s / 2 ^ 8 % 2 ^ 6) % 2 ^ 32 = 32 - rxf0s / 2 ^ 8 % 2 ^ 6 := by
      omega
    simp only [hu]
    split_ifs <;> (try dsimp only) <;> omega

/-- Witness for claim C2: the no-wrap bound evaluated at a concrete TXQFS
value and at the RXF0S value of the C6 scenario. -/
theorem burst_window_no_wrap_witness :
    ((2565 : Nat) >>> 8) &&& 0x3F ≤ RX_MSG_BOXES ∧
    ((tcan4550_tx_work_model 3).writeIndex + (tcan4550_tx_work_model 3).msgsToTransmit ≤
        TX_MSG_BOXES ∧
      (tcan4550_recMsgs_model 2565).getIndex + (tcan4550_recMsgs_model 2565).msgsToGet ≤
        RX_MSG_BOXES) :=
  ⟨by decide, burst_window_no_wrap 3 2565 (by decide)⟩

/-! ### Claim C6: receive acknowledge value -/

/-- Claim C6 (confirmed): with fill level 5 and read index 10 reported by
RXF0S, the pass reads all 5 messages and its only register write is the
single acknowledge of the last consumed index, value 14, to RXF0A. -/
theorem recMsgs_ack_last_index :
    (tcan4550_recMsgs_model 2565).fillLevel = 5 ∧
    (tcan4550_recMsgs_model 2565).getIndex = 10 ∧
    (tcan4550_recMsgs_model 2565).msgsToGet = 5 ∧
    (tcan4550_recMsgs_model 2565).regWrites = [(RXF0A, 14)] := by
  refine ⟨?_, ?_, ?_, ?_⟩ <;> decide

/-! ### Software TX staging queue -/

/-- Index state of the software tx staging queue (tx_head, tx_tail of the
private struct). -/
structure TxQueue where
  head : Nat
  tail : Nat
deriving DecidableEq

/-- Embedding of the enqueue step of tcan_start_xmit: advance a tentative
head with wrap at TX_BUFFER_SIZE; if it would meet the tail, report busy and
leave the queue untouched, otherwise store at the old head and commit the new
head.  Returns (accepted, new queue state). -/
def tcan_start_xmit (q : TxQueue) : Bool × TxQueue :=
  let tmpHead := q.head + 1
  let tmpHead := if TX_BUFFER_SIZE ≤ tmpHead then 0 else tmpHead
  if tmpHead = q.tail then (false, q)
  else (true, { head := tmpHead, tail := q.tail })

/-- Embedding of one tail advance of the drain loop in
tcan4550_tx_work_handler: if the queue is nonempty, the tail moves forward
one slot with wrap at TX_BUFFER_SIZE. -/
def tcan4550_tx_drainOne (q : TxQueue) : TxQueue :=
  if q.head ≠ q.tail then
    { head := q.head
      tail := if TX_BUFFER_SIZE ≤ q.tail + 1 then 0 else q.tail + 1 }
  else q

/-- The queue state after n enqueue attempts starting from the reset state
head = tail = 0 established by tcan_open. -/
def xmitN : Nat → TxQueue
  | 0 => { head := 0, tail := 0 }
  | n + 1 => (tcan_start_xmit (xmitN n)).2

/-- Number of staged frames held by the queue, for indices in range. -/
def txQueueLevel (q : TxQueue) : Nat :=
  (q.head + TX_BUFFER_SIZE - q.tail) % TX_BUFFER_SIZE

/-! ### Claim C3: staging-queue capacity behaviour -/

/-- Claim C3 (confirmed): from the empty queue, the first 16 enqueues are
accepted, the 17th is rejected and leaves head and tail unchanged, and after
one drain step a further enqueue is accepted; moreover, over all in-range
index pairs, the queue holds no frame exactly when head equals tail, and an
enqueue is rejected exactly when advancing the head by one modulo 17 reaches
the tail. -/
theorem start_xmit_capacity :
    (∀ k, k < 16 → (tcan_start_xmit (xmitN k)).1 = true) ∧
    (tcan_start_xmit (xmitN 16)).1 = false ∧
    (tcan_start_xmit (xmitN 16)).2 = xmitN 16 ∧
    (tcan_start_xmit (tcan4550_tx_drainOne (xmitN 16))).1 = true ∧
    (∀ h < TX_BUFFER_SIZE, ∀ t < TX_BUFFER_SIZE,
      (txQueueLevel ⟨h, t⟩ = 0 ↔ h = t)) ∧
    (∀ h < TX_BUFFER_SIZE, ∀ t < TX_BUFFER_SIZE,
      ((tcan_start_xmit ⟨h, t⟩).1 = false ↔ (h + 1) % TX_BUFFER_SIZE = t)) := by
  refine ⟨by decide, by decide, by decide, by decide, by decide, by decide⟩

/-! ### Event dispatcher -/

/-- Bus states of the Linux CAN layer used by the driver. -/
inductive CanState where
  | ERROR_ACTIVE
  | ERROR_WARNING
  | ERROR_PASSIVE
  | BUS_OFF
  | STOPPED
deriving DecidableEq

/-- Return value of the threaded interrupt handler. -/
inductive IrqRet where
  | IRQ_NONE
  | IRQ_HANDLED
deriving DecidableEq

/-- Observable outcome of one run of the interrupt handler: return value,
resulting bus state, register writes issued by the handler body itself,
whether the receive path was invoked, whether the Linux queue was woken,
whether the bus-off notification was raised, the can_id flag words of the
synthesized error frames delivered upward, and whether the Linux queue was
stopped. -/
structure DispatchOut where
  ret : IrqRet
  state : CanState
  regWrites : List (Nat × Nat)
  rxInvoked : Bool
  wakeQueue : Bool
  busOffNotified : Bool
  errFrames : List Nat
  stopQueue : Bool
deriving DecidableEq

/-- Embedding of tcan4450_handleInterrupts as a pure function of the value
read from the interrupt register, the current bus state and whether the
error-frame allocation succeeds.  The handler first acknowledges exactly the
observed value, returns IRQ_NONE on zero, and otherwise processes the rx,
tx-empty, bus-off, error-warning and error-passive conditions in source
order. -/
def tcan4450_handleInterrupts (ir_val : Nat) (st : CanState) (allocOk : Bool) : DispatchOut :=
  if ir_val = 0 then
    { ret := .IRQ_NONE, state := st, regWrites := [(IR, ir_val)], rxInvoked := false,
      wakeQueue := false, busOffNotified := false, errFrames := [], stopQueue := false }
  else
    let busOff : Bool := ir_val &&& BO != 0
    { ret := .IRQ_HANDLED
      state :=
        if ir_val &&& EP != 0 then .ERROR_PASSIVE
        else if ir_val &&& EW != 0 then .ERROR_WARNING
        else if busOff then .BUS_OFF
        else st
      regWrites := if busOff then [(IR, ir_val), (IE, 0)] else [(IR, ir_val)]
      rxInvoked := ir_val &&& RF0N != 0
      wakeQueue := ir_val &&& TFE != 0
      busOffNotified := busOff
      errFrames := if busOff && allocOk then [CAN_ERR_BUSOFF] else []
      stopQueue := busOff }

/-! ### Claim C4: bus-off handling -/

/-- Claim C4 (confirmed): when the interrupt word has only the bus-off bit
(bit 25) set, the handler moves the bus state to BUS_OFF, its register
traffic is the acknowledge of the observed word followed by a write of zero
to the interrupt-enable register, it raises the bus-off notification,
delivers exactly one synthesized bus-off error frame, stops the Linux
transmit queue, and does not touch the rx path or wake the queue. -/
theorem busoff_dispatch (st : CanState) :
    tcan4450_handleInterrupts BO st true =
      { ret := .IRQ_HANDLED, state := .BUS_OFF, regWrites := [(IR, BO), (IE, 0)],
        rxInvoked := false, wakeQueue := false, busOffNotified := true,
        errFrames := [CAN_ERR_BUSOFF], stopQueue := true } := by
  cases st <;> decide

/-! ### Bit-timing limits -/

/-- Shape of the Linux can_bittiming_const table. -/
structure can_bittiming_const_s where
  tseg1_min : Nat
  tseg1_max : Nat
  tseg2_min : Nat
  tseg2_max : Nat
  sjw_max : Nat
  brp_min : Nat
  brp_max : Nat
  brp_inc : Nat
deriving DecidableEq

/-- The bit-timing limits the driver advertises to the Linux CAN core. -/
def tcan4550_bittiming_const : can_bittiming_const_s :=
  { tseg1_min := 1, tseg1_max := 255, tseg2_min := 1, tseg2_max := 127,
    sjw_max := 127, brp_min := 1, brp_max := 511, brp_inc := 1 }

/-- Modelled from the spec: the prescaler range validation performed by the
network-stack collaborator (the Linux CAN core, outside this repository),
which checks each bit-timing parameter against the limits the driver
advertises and fails with InvalidArgument when out of range; a prescaler is
accepted exactly when it lies between brp_min and brp_max of the advertised
table. -/
def brpAccepted (c : can_bittiming_const_s) (brp : Nat) : Bool :=
  decide (c.brp_min ≤ brp) && decide (brp ≤ c.brp_max)

/-! ### Claim C5: prescaler range -/

/-- Claim C5, counterexample: prescaler 512 is rejected, because the table
advertises brp_max = 511, while the claim says 512 is accepted. -/
theorem brp_512_rejected : brpAccepted tcan4550_bittiming_const 512 = false := by decide

/-- Claim C5 (corrected): prescaler 0 is rejected and prescaler 1 accepted as
claimed, but the upper end of the accepted range is 511, not 512: the
advertised table carries brp_max = 511, so 511 is accepted while 512 and 513
are rejected; in general a prescaler is accepted exactly when it lies in
1..511. -/
theorem brp_accepted_range :
    brpAccepted tcan4550_bittiming_const 0 = false ∧
    brpAccepted tcan4550_bittiming_const 1 = true ∧
    brpAccepted tcan4550_bittiming_const 511 = true ∧
    brpAccepted tcan4550_bittiming_const 512 = false ∧
    brpAccepted tcan4550_bittiming_const 513 = false ∧
    ∀ b, brpAccepted tcan4550_bittiming_const b = true ↔ 1 ≤ b ∧ b ≤ 511 := by
  refine ⟨by decide, by decide, by decide, by decide, by decide, ?_⟩
  intro b
  simp [brpAccepted, tcan4550_bittiming_const]

/-! ### Transport framer -/

/-- Embedding of spi_transfer: the null-pointer argument check, then the bus
exchange; the spi_sync result is returned to the caller unchanged. -/
def spi_transfer_model (spiOk rxBufOk txBufOk : Bool) (busRet : Int) : Int :=
  if !spiOk || !rxBufOk || !txBufOk then -22 else busRet

/-- The 8-byte request built by spi_write32: write opcode, address high and
low bytes, word count 1, then the data word in big-endian order, each store
truncated to an unsigned char. -/
def spi_write32_txBuf (address dataVal : Nat) : List Nat :=
  [toByte 0x61, toByte (address >>> 8), toByte (address &&& 0xFF), toByte 1,
   toByte ((dataVal >>> 24) &&& 0xFF), toByte ((dataVal >>> 16) &&& 0xFF),
   toByte ((dataVal >>> 8) &&& 0xFF), toByte (dataVal &&& 0xFF)]

/-- Embedding of spi_write32: builds the 8-byte request and returns the
result of its single 8-byte transfer; components are the C return value, the
request bytes and the lengths of the transfers issued. -/
def spi_write32_model (busRet : Int) (address dataVal : Nat) : Int × List Nat × List Nat :=
  (spi_transfer_model true true true busRet, spi_write32_txBuf address dataVal, [8])

/-- Embedding of spi_read32: builds the read request, performs one 8-byte
transfer whose result is discarded, and assembles the returned word from
receive bytes 4..7; components are the returned word and the lengths of the
transfers issued. -/
def spi_read32_model (busRetDropped : Int) (rxBuf : Fin 8 → Nat) : Nat × List Nat :=
  ((rxBuf 4 <<< 24) + (rxBuf 5 <<< 16) + (rxBuf 6 <<< 8) + rxBuf 7, [8])

/-! ### Claim C7: write request framing -/

/-- Claim C7 (confirmed): writing 0x12345678 to register 0x101C produces
exactly the bytes 0x61 0x10 0x1C 0x01 0x12 0x34 0x56 0x78. -/
theorem spi_write32_framing_literal :
    spi_write32_txBuf 0x101C 0x12345678 =
      [0x61, 0x10, 0x1C, 0x01, 0x12, 0x34, 0x56, 0x78] := by decide

/-! ### Burst access layer -/

/-- Outcome of a burst SPI operation: the C return value, the driver transfer
buffer after the call, the lengths of the SPI transactions issued, and the
(index, value) writes into the caller output array. -/
structure BurstAttempt where
  ret : Int
  txBufAfter : List Nat
  transferLens : List Nat
  dataWrites : List (Nat × Nat)
deriving DecidableEq

/-- The (index, value) pairs the decode loop of spi_read_msgs stores into the
caller output array, one quadruple of words per loop iteration; the loop
bound msgs*4 and the 16-byte stride per iteration are exactly those of the
source. -/
def spi_read_msgs_dataWrites (rx : Nat → Nat) (msgs : Nat) : List (Nat × Nat) :=
  (List.range (msgs * 4)).flatMap (fun i =>
    [(0 + i * 4, rx (7 + i * 16) + (rx (6 + i * 16) <<< 8) + (rx (5 + i * 16) <<< 16) +
        (rx (4 + i * 16) <<< 24)),
     (1 + i * 4, rx (11 + i * 16) + (rx (10 + i * 16) <<< 8) + (rx (9 + i * 16) <<< 16) +
        (rx (8 + i * 16) <<< 24)),
     (2 + i * 4, rx (15 + i * 16) + (rx (14 + i * 16) <<< 8) + (rx (13 + i * 16) <<< 16) +
        (rx (12 + i * 16) <<< 24)),
     (3 + i * 4, rx (19 + i * 16) + (rx (18 + i * 16) <<< 8) + (rx (17 + i * 16) <<< 16) +
        (rx (16 + i * 16) <<< 24))])

/-- The rx_rxBuf byte indices the decode loop of spi_read_msgs reads, in
source order. -/
def spi_read_msgs_rxReadIndices (msgs : Nat) : List Nat :=
  (List.range (msgs * 4)).flatMap (fun i =>
    [7 + i * 16, 6 + i * 16, 5 + i * 16, 4 + i * 16,
     11 + i * 16, 10 + i * 16, 9 + i * 16, 8 + i * 16,
     15 + i * 16, 14 + i * 16, 13 + i * 16, 12 + i * 16,
     19 + i * 16, 18 + i * 16, 17 + i * 16, 16 + i * 16])

/-- The output-array word indices the decode loop of spi_read_msgs writes. -/
def spi_read_msgs_dataWriteIndices (msgs : Nat) : List Nat :=
  (List.range (msgs * 4)).flatMap (fun i => [0 + i * 4, 1 + i * 4, 2 + i * 4, 3 + i * 4])

/-- Embedding of spi_read_msgs: reject more than MAX_BURST_RX_MESSAGES
messages before any bus activity; otherwise fill the request header, issue
one transfer of 4 + msgs*16 bytes and run the decode loop over the received
bytes rx. -/
def spi_read_msgs_model (busRet : Int) (rx : Nat → Nat) (address : Nat) (msgs : Int)
    (buf : List Nat) : BurstAttempt :=
  if (MAX_BURST_RX_MESSAGES : Int) < msgs then
    { ret := -22, txBufAfter := buf, transferLens := [], dataWrites := [] }
  else
    let m := msgs.toNat
    { ret := busRet
      txBufAfter :=
        (((buf.set 0 (toByte 0x41)).set 1 (toByte (address >>> 8))).set 2
            (toByte (address &&& 0xFF))).set 3 (toByte (m * 4))
      transferLens := [4 + m * 16]
      dataWrites := spi_read_msgs_dataWrites rx m }

/-- Embedding of spi_write_msgs: reject more than MAX_BURST_TX_MESSAGES
messages before any bus activity; otherwise fill the request header, pack the
msgs*4 data words big-endian into the transfer buffer and issue one transfer
of 4 + msgs*16 bytes. -/
def spi_write_msgs_model (busRet : Int) (address : Nat) (msgs : Int) (buf : List Nat)
    (data : Nat → Nat) : BurstAttempt :=
  if (MAX_BURST_TX_MESSAGES : Int) < msgs then
    { ret := -22, txBufAfter := buf, transferLens := [], dataWrites := [] }
  else
    let m := msgs.toNat
    let hdr := (((buf.set 0 (toByte 0x61)).set 1 (toByte (address >>> 8))).set 2
        (toByte (address &&& 0xFF))).set 3 (toByte (m * 4))
    let full := (List.range (m * 4)).foldl (fun b i =>
      (((b.set (4 + i * 4) (toByte ((data i >>> 24) &&& 0xFF))).set (5 + i * 4)
          (toByte ((data i >>> 16) &&& 0xFF))).set (6 + i * 4)
          (toByte ((data i >>> 8) &&& 0xFF))).set (7 + i * 4) (toByte (data i &&& 0xFF))) hdr
    { ret := busRet, txBufAfter := full, transferLens := [4 + m * 16], dataWrites := [] }

/-! ### Claim C8: oversized bursts rejected before any bus activity -/

/-- Claim C8 (confirmed): for any message count above 8, both the burst read
and the burst write return -EINVAL, issue no SPI transaction and leave the
transfer buffers and the caller output array untouched. -/
theorem burst_oversize_rejected (busRet : Int) (rx : Nat → Nat) (address : Nat)
    (msgs : Int) (bufr bufw : List Nat) (data : Nat → Nat) (h : 8 < msgs) :
    spi_read_msgs_model busRet rx address msgs bufr =
      { ret := -22, txBufAfter := bufr, transferLens := [], dataWrites := [] } ∧
    spi_write_msgs_model busRet address msgs bufw data =
      { ret := -22, txBufAfter := bufw, transferLens := [], dataWrites := [] } := by
  have h8 : (MAX_BURST_RX_MESSAGES : Int) < msgs := by
    simp only [MAX_BURST_RX_MESSAGES]
    exact_mod_cast h
  have h8w : (MAX_BURST_TX_MESSAGES : Int) < msgs := by
    simp only [MAX_BURST_TX_MESSAGES]
    exact_mod_cast h
  constructor
  · simp only [spi_read_msgs_model, if_pos h8]
  · simp only [spi_write_msgs_model, if_pos h8w]

/-- Witness for claim C8: the rejection evaluated at message count 9. -/
theorem burst_oversize_rejected_witness :
    (8 : Int) < 9 ∧
    (spi_read_msgs_model 0 (fun _ => 0) 0x8000 9 [] =
      { ret := -22, txBufAfter := [], transferLens := [], dataWrites := [] } ∧
    spi_write_msgs_model 0 0x8000 9 [] (fun _ => 0) =
      { ret := -22, txBufAfter := [], transferLens := [], dataWrites := [] }) :=
  ⟨by decide, burst_oversize_rejected 0 (fun _ => 0) 0x8000 9 [] [] (fun _ => 0) (by decide)⟩

/-! ### Claim C9: transport failures and spi_read32 -/

/-- Claim C9, counterexample: with the transfer failing with -ENODEV (-19)
and an all-zero receive buffer, spi_read32 returns the ordinary data word 0,
indistinguishable from the same read with a successful transfer: the
transport failure is not surfaced by spi_read32. -/
theorem spi_read32_ignores_transport_failure :
    spi_read32_model (-19) (fun _ => 0) = spi_read32_model 0 (fun _ => 0) ∧
    (spi_read32_model (-19) (fun _ => 0)).1 = 0 := by
  constructor
  · rfl
  · rfl

/-- Claim C9 (corrected): a transport failure is surfaced unchanged by
spi_transfer to its immediate caller, and spi_write32 passes it on as its own
return value, with no retry in either function; spi_read32, however, discards
the transfer result and returns the word assembled from its receive buffer
exactly as it would after a successful transfer, again without retrying (it
issues exactly one transfer). -/
theorem transport_failure_surfaced (busRet : Int) (rxBuf : Fin 8 → Nat)
    (address dataVal : Nat) (_h : busRet ≠ 0) :
    spi_transfer_model true true true busRet = busRet ∧
    (spi_write32_model busRet address dataVal).1 = busRet ∧
    (spi_write32_model busRet address dataVal).2.2 = [8] ∧
    (spi_read32_model busRet rxBuf).1 = (spi_read32_model 0 rxBuf).1 ∧
    (spi_read32_model busRet rxBuf).2 = [8] := by
  refine ⟨rfl, rfl, rfl, rfl, rfl⟩

/-- Witness for claim C9: the amended statement evaluated at a failing
transfer with code -19. -/
theorem transport_failure_surfaced_witness :
    (-19 : Int) ≠ 0 ∧
    (spi_transfer_model true true true (-19) = -19 ∧
    (spi_write32_model (-19) 0x101C 0x12345678).1 = -19 ∧
    (spi_write32_model (-19) 0x101C 0x12345678).2.2 = [8] ∧
    (spi_read32_model (-19) (fun _ => 1)).1 = (spi_read32_model 0 (fun _ => 1)).1 ∧
    (spi_read32_model (-19) (fun _ => 1)).2 = [8]) :=
  ⟨by decide, transport_failure_surfaced (-19) (fun _ => 1) 0x101C 0x12345678 (by decide)⟩

/-! ### Claim C10: decode-loop indices of spi_read_msgs -/

/-- Number of bytes in the SPI receive scratch buffer rx_rxBuf. -/
def RX_SPI_BUF_BYTES : Nat := 4 + MAX_BURST_RX_MESSAGES * 16

/-- Claim C10 (code bug): message count 3 passes the burst guard, yet the
decode loop, which runs its message-stride body msgs*4 times instead of msgs
times, reads rx_rxBuf index 195, beyond the 132-byte buffer, and writes
output-array word index 47, beyond both msgs*4 = 12 and the 32-word array. -/
theorem spi_read_msgs_indices_out_of_bounds :
    ¬((MAX_BURST_RX_MESSAGES : Int) < 3) ∧
    195 ∈ spi_read_msgs_rxReadIndices 3 ∧
    ¬(195 < RX_SPI_BUF_BYTES) ∧
    47 ∈ spi_read_msgs_dataWriteIndices 3 ∧
    ¬(47 < 3 * 4) ∧
    ¬(47 < 32) := by
  refine ⟨by decide, by decide, by decide, by decide, by decide, by decide⟩
